import Mathlib

set_option maxRecDepth 8000

/-!
Shallow embedding of the sks streaming core (backend/glial/streaming.py,
backend/glial/models.py, backend/glial/agent.py).

Python strings are modelled as Lean String (or List Char where the source
iterates character by character); Python dicts produced by JSON decoding are
modelled as association lists in insertion order (duplicate keys: last one
wins on lookup, matching dict construction from JSON); Python None slots of
type Any are modelled as Option Json.  Fallible Python code (statements that
can raise) is modelled with Except String; the error string names the Python
exception being modelled.
-/

/-! ### JSON values (model of objects produced by json.loads / msgspec) -/

inductive Json where
  | null : Json
  | bool (b : Bool) : Json
  | num (n : Int) : Json
  | str (s : String) : Json
  | arr (elems : List Json) : Json
  | obj (fields : List (String × Json)) : Json

/-- A decoded JSON object, as an association list in key insertion order. -/
abbrev JObj := List (String × Json)

/-- Model of dict.get k: the last binding wins, as for dicts built from JSON. -/
def jget (o : JObj) (k : String) : Option Json :=
  (o.reverse.find? (fun p => p.1 == k)).map (fun p => p.2)

/-- Model of dict.get k dflt. -/
def jgetD (o : JObj) (k : String) (d : Json) : Json := (jget o k).getD d

/-! ### Python string helpers (character-list based, matching str methods) -/

/-- Whitespace stripped by Python str.strip / str.lstrip (ASCII part; the
source never meets non-ASCII whitespace). -/
def pyIsSpace : Char → Bool
  | ' ' => true
  | '\t' => true
  | '\n' => true
  | '\r' => true
  | '\u000B' => true
  | '\u000C' => true
  | _ => false

def lstripChars (cs : List Char) : List Char := cs.dropWhile pyIsSpace

def stripChars (cs : List Char) : List Char :=
  ((lstripChars cs).reverse.dropWhile pyIsSpace).reverse

/-- Model of line.strip() == "" (the blank-line test of the frame decoder). -/
def isBlankLine (cs : List Char) : Bool := (stripChars cs).isEmpty

/-- Model of line.startswith(p). -/
def hasPrefixL (p cs : List Char) : Bool := p.isPrefixOf cs

/-! ### JSON text parser

Modelled from the spec: Python json.loads and the JSON-syntax layer of
msgspec.json.Decoder are standard-library code that is not under src/; this
parser follows the JSON grammar they implement, restricted to the subset
without floating-point literals, exponents and unicode escapes, which covers
every payload evaluated in this development (a literal outside the subset
makes the parser fail, as a conservative stand-in). -/

/-- The four whitespace characters of the JSON grammar. -/
def jsonWs : Char → Bool
  | ' ' => true
  | '\t' => true
  | '\n' => true
  | '\r' => true
  | _ => false

def skipWs (cs : List Char) : List Char := cs.dropWhile jsonWs

/-- The two-character escapes of the JSON grammar, as source and denoted
character pairs. -/
def escPairs : List (Char × Char) :=
  [('"', '"'), ('\\', '\\'), ('/', '/'), ('n', '\n'), ('t', '\t'), ('r', '\r'), ('b', Char.ofNat 8), ('f', Char.ofNat 12)]

def escChar (c : Char) : Option Char :=
  (escPairs.find? (fun p => p.1 == c)).map (fun p => p.2)

/-- String literal body (after the opening quote): JSON strings reject raw
control characters and unrecognized escapes. -/
def strLitLoop (acc : List Char) : List Char → Option (String × List Char)
  | '"' :: rest => some (String.mk acc.reverse, rest)
  | '\\' :: c :: rest =>
      match escChar c with
      | some e => strLitLoop (e :: acc) rest
      | none => none
  | '\\' :: [] => none
  | c :: rest => if c.toNat < 32 then none else strLitLoop (c :: acc) rest
  | [] => none

def digitsVal (ds : List Char) : Nat := ds.foldl (fun a c => a * 10 + (c.toNat - 48)) 0

/-- Integer literal; a following fraction or exponent marks a float, which is
outside the modelled subset.  JSON rejects redundant leading zeros. -/
def intLit (cs : List Char) : Option (Int × List Char) :=
  let neg : Bool := match cs with
    | '-' :: _ => true
    | _ => false
  let cs1 := if neg then cs.drop 1 else cs
  let ds := cs1.takeWhile Char.isDigit
  let rest := cs1.dropWhile Char.isDigit
  if ds.isEmpty then none
  else if ds.length > 1 && ds.headD '0' == '0' then none
  else match rest with
    | '.' :: _ => none
    | 'e' :: _ => none
    | 'E' :: _ => none
    | _ => some (if neg then -(digitsVal ds : Int) else (digitsVal ds : Int), rest)

/-- The three keyword literals of the JSON grammar. -/
def keywordLit : List Char → Option (Json × List Char)
  | 'n' :: rest => if ['u', 'l', 'l'].isPrefixOf rest then some (Json.null, rest.drop 3) else none
  | 't' :: rest => if ['r', 'u', 'e'].isPrefixOf rest then some (Json.bool true, rest.drop 3) else none
  | 'f' :: rest => if ['a', 'l', 's', 'e'].isPrefixOf rest then some (Json.bool false, rest.drop 4) else none
  | _ => none

/-- Stack frame of the iterative JSON parser: an array or object being built,
with the fields collected so far (and, for objects, the pending key). -/
inductive PFrame where
  | inArr (acc : List Json) : PFrame
  | inObj (acc : JObj) (key : String) : PFrame

/-- Parser mode: about to read a value, or just finished one. -/
inductive PMode where
  | value : PMode
  | closed (v : Json) : PMode

/-- Iterative JSON parser; fuel only bounds the recursion (every step consumes
input, so the fuel passed by parseJsonChars is never exhausted first). -/
def parseLoop : Nat → PMode → List Char → List PFrame → Option (Json × List Char)
  | 0, _, _, _ => none
  | fuel + 1, PMode.value, cs, stack =>
    (match keywordLit (skipWs cs) with
     | some (v, r) => parseLoop fuel (PMode.closed v) r stack
     | none =>
        match skipWs cs with
        | '"' :: r =>
          (match strLitLoop [] r with
           | some (s, r2) => parseLoop fuel (PMode.closed (Json.str s)) r2 stack
           | none => none)
        | '[' :: r =>
          (match skipWs r with
           | ']' :: r2 => parseLoop fuel (PMode.closed (Json.arr [])) r2 stack
           | _ => parseLoop fuel PMode.value r (PFrame.inArr [] :: stack))
        | '\x7b' :: r =>
          (match skipWs r with
           | '\x7d' :: r2 => parseLoop fuel (PMode.closed (Json.obj [])) r2 stack
           | '"' :: r2 =>
             (match strLitLoop [] r2 with
              | some (k, r3) =>
                (match skipWs r3 with
                 | ':' :: r4 => parseLoop fuel PMode.value r4 (PFrame.inObj [] k :: stack)
                 | _ => none)
              | none => none)
           | _ => none)
        | c :: r =>
          if c == '-' || c.isDigit then
            match intLit (c :: r) with
            | some (n, r2) => parseLoop fuel (PMode.closed (Json.num n)) r2 stack
            | none => none
          else none
        | [] => none)
  | fuel + 1, PMode.closed v, cs, stack =>
    match stack with
    | [] => some (v, cs)
    | PFrame.inArr acc :: rest =>
      (match skipWs cs with
       | ',' :: r => parseLoop fuel PMode.value r (PFrame.inArr (acc ++ [v]) :: rest)
       | ']' :: r => parseLoop fuel (PMode.closed (Json.arr (acc ++ [v]))) r rest
       | _ => none)
    | PFrame.inObj acc k :: rest =>
      (match skipWs cs with
       | ',' :: r =>
         (match skipWs r with
          | '"' :: r2 =>
            (match strLitLoop [] r2 with
             | some (k2, r3) =>
               (match skipWs r3 with
                | ':' :: r4 => parseLoop fuel PMode.value r4 (PFrame.inObj (acc ++ [(k, v)]) k2 :: rest)
                | _ => none)
             | none => none)
          | _ => none)
       | '\x7d' :: r => parseLoop fuel (PMode.closed (Json.obj (acc ++ [(k, v)]))) r rest
       | _ => none)

/-- Model of json.loads on a character list: parse one value, then require
only whitespace to remain. -/
def parseJsonChars (cs : List Char) : Option Json :=
  match parseLoop (2 * cs.length + 16) PMode.value cs [] with
  | some (v, rest) => if (skipWs rest).isEmpty then some v else none
  | none => none

/-- Model of json.loads on a Python str. -/
def parseJson (s : String) : Option Json := parseJsonChars s.toList

/-! ### Event model (backend/glial/models.py)

Each msgspec Struct variant of the StreamEvent tagged union becomes a
constructor carrying the fields the aggregator reads; fields that the
decoder merely validates and no code reads again (event parts, logprobs,
obfuscation) are checked during decoding and then dropped.  UnknownEvent
carries the raw type value (data.get of the type key, which need not be a
string when constructed by the decoder fallback) and the raw object. -/

structure ResponseCore where
  id : String
  created_at : Int
  status : String
  background : Bool
  model : Option String
  usage : Option Json
  output : Option (List JObj)

inductive Event where
  | ResponseCreated (sequence_number : Int) (response : ResponseCore) : Event
  | ResponseInProgress (sequence_number : Int) (response : ResponseCore) : Event
  | ResponseOutputItemAdded (sequence_number : Int) (output_index : Int) (item : JObj) : Event
  | ResponseReasoningSummaryPartAdded (sequence_number : Int) (item_id : String) (output_index : Int) (summary_index : Int) : Event
  | ResponseReasoningSummaryTextDelta (sequence_number : Int) (item_id : String) (output_index : Int) (summary_index : Int) (delta : String) : Event
  | ResponseReasoningSummaryTextDone (sequence_number : Int) (item_id : String) (output_index : Int) (summary_index : Int) (text : String) : Event
  | ResponseReasoningSummaryPartDone (sequence_number : Int) (item_id : String) (output_index : Int) (summary_index : Int) : Event
  | ResponseOutputItemDone (sequence_number : Int) (output_index : Int) (item : JObj) : Event
  | ResponseContentPartAdded (sequence_number : Int) (item_id : String) (output_index : Int) (content_index : Int) : Event
  | ResponseOutputTextDelta (sequence_number : Int) (item_id : String) (output_index : Int) (content_index : Int) (delta : String) : Event
  | ResponseOutputTextDone (sequence_number : Int) (item_id : String) (output_index : Int) (content_index : Int) (text : String) : Event
  | ResponseContentPartDone (sequence_number : Int) (item_id : String) (output_index : Int) (content_index : Int) : Event
  | ResponseFunctionCallArgumentsDelta (sequence_number : Int) (item_id : String) (output_index : Int) (delta : String) : Event
  | ResponseFunctionCallArgumentsDone (sequence_number : Int) (item_id : String) (output_index : Int) (arguments : String) : Event
  | ResponseCustomToolCallInputDelta (sequence_number : Int) (item_id : String) (output_index : Int) (delta : String) : Event
  | ResponseCustomToolCallInputDone (sequence_number : Int) (item_id : String) (output_index : Int) (input : String) : Event
  | ResponseCompleted (sequence_number : Int) (response : ResponseCore) : Event
  | UnknownEvent (type : Json) (raw : JObj) : Event

/-! ### Typed decoding (model of msgspec.json.Decoder on the StreamEvent union)

msgspec dispatches on the type tag, requires every non-defaulted field with
the declared type, accepts null or the declared type for Optional fields,
and ignores unknown keys.  Any mismatch is a DecodeError, which the source
turns into an UnknownEvent fallback. -/

def asStr : Json → Option String
  | Json.str s => some s
  | _ => none

def asInt : Json → Option Int
  | Json.num n => some n
  | _ => none

def asBool : Json → Option Bool
  | Json.bool b => some b
  | _ => none

def asObj : Json → Option JObj
  | Json.obj o => some o
  | _ => none

def reqStr (o : JObj) (k : String) : Option String := (jget o k).bind asStr
def reqInt (o : JObj) (k : String) : Option Int := (jget o k).bind asInt
def reqBool (o : JObj) (k : String) : Option Bool := (jget o k).bind asBool
def reqObj (o : JObj) (k : String) : Option JObj := (jget o k).bind asObj

/-- Field declared Optional with default None: absent or null give none. -/
def optStrField (o : JObj) (k : String) : Option (Option String) :=
  match jget o k with
  | none => some none
  | some Json.null => some none
  | some (Json.str s) => some (some s)
  | some _ => none

/-- Field declared as an optional dict (usage): absent or null give none. -/
def optObjJsonField (o : JObj) (k : String) : Option (Option Json) :=
  match jget o k with
  | none => some none
  | some Json.null => some none
  | some (Json.obj f) => some (some (Json.obj f))
  | some _ => none

/-- Field declared as a list with default (annotation List of Any): validated
as an array when present, contents unconstrained. -/
def optArrField (o : JObj) (k : String) : Option Unit :=
  match jget o k with
  | none => some ()
  | some (Json.arr _) => some ()
  | some _ => none

def objList : List Json → Option (List JObj)
  | [] => some []
  | Json.obj f :: rest => (objList rest).map (fun l => f :: l)
  | _ :: _ => none

/-- Optional list of dicts (the output field of ResponseCore). -/
def optOutputField (o : JObj) (k : String) : Option (Option (List JObj)) :=
  match jget o k with
  | none => some none
  | some Json.null => some none
  | some (Json.arr es) => (objList es).map some
  | some _ => none

/-- ResponseCore: required id, object literal, created_at, status, background;
the optional fields the program later reads (model, usage, output) are
validated and kept, the remaining pass-through optional fields are accepted
unvalidated (none of them is read by the aggregator or the agent). -/
def decodeResponseCore (j : Json) : Option ResponseCore := do
  let o ← asObj j
  let id ← reqStr o "id"
  let ob ← reqStr o "object"
  if ob != "response" then none else
  let created_at ← reqInt o "created_at"
  let status ← reqStr o "status"
  let background ← reqBool o "background"
  let model ← optStrField o "model"
  let usage ← optObjJsonField o "usage"
  let output ← optOutputField o "output"
  some { id := id, created_at := created_at, status := status, background := background,
         model := model, usage := usage, output := output }

/-- ReasoningSummaryPart: literal summary_text tag plus a text string. -/
def decodeSummaryPart (j : Json) : Option Unit := do
  let o ← asObj j
  let t ← reqStr o "type"
  if t != "summary_text" then none else
  let _ ← reqStr o "text"
  some ()

/-- OutputTextPart: literal output_text tag; text defaults to the empty
string, the two list fields default to empty lists. -/
def decodeTextPart (j : Json) : Option Unit := do
  let o ← asObj j
  let t ← reqStr o "type"
  if t != "output_text" then none else
  let _ ← optArrField o "annotations"
  let _ ← optArrField o "logprobs"
  let _ ← match jget o "text" with
    | none => some ()
    | some (Json.str _) => some ()
    | some _ => none
  some ()

def decodeTyped (j : Json) : Option Event := do
  let o ← asObj j
  let t ← reqStr o "type"
  match t with
  | "response.created" => do
    let sn ← reqInt o "sequence_number"
    let r ← (jget o "response").bind decodeResponseCore
    some (Event.ResponseCreated sn r)
  | "response.in_progress" => do
    let sn ← reqInt o "sequence_number"
    let r ← (jget o "response").bind decodeResponseCore
    some (Event.ResponseInProgress sn r)
  | "response.output_item.added" => do
    let sn ← reqInt o "sequence_number"
    let oi ← reqInt o "output_index"
    let item ← reqObj o "item"
    some (Event.ResponseOutputItemAdded sn oi item)
  | "response.reasoning_summary_part.added" => do
    let sn ← reqInt o "sequence_number"
    let iid ← reqStr o "item_id"
    let oi ← reqInt o "output_index"
    let si ← reqInt o "summary_index"
    let _ ← (jget o "part").bind decodeSummaryPart
    some (Event.ResponseReasoningSummaryPartAdded sn iid oi si)
  | "response.reasoning_summary_text.delta" => do
    let sn ← reqInt o "sequence_number"
    let iid ← reqStr o "item_id"
    let oi ← reqInt o "output_index"
    let si ← reqInt o "summary_index"
    let d ← reqStr o "delta"
    let _ ← optStrField o "obfuscation"
    some (Event.ResponseReasoningSummaryTextDelta sn iid oi si d)
  | "response.reasoning_summary_text.done" => do
    let sn ← reqInt o "sequence_number"
    let iid ← reqStr o "item_id"
    let oi ← reqInt o "output_index"
    let si ← reqInt o "summary_index"
    let tx ← reqStr o "text"
    some (Event.ResponseReasoningSummaryTextDone sn iid oi si tx)
  | "response.reasoning_summary_part.done" => do
    let sn ← reqInt o "sequence_number"
    let iid ← reqStr o "item_id"
    let oi ← reqInt o "output_index"
    let si ← reqInt o "summary_index"
    let _ ← (jget o "part").bind decodeSummaryPart
    some (Event.ResponseReasoningSummaryPartDone sn iid oi si)
  | "response.output_item.done" => do
    let sn ← reqInt o "sequence_number"
    let oi ← reqInt o "output_index"
    let item ← reqObj o "item"
    some (Event.ResponseOutputItemDone sn oi item)
  | "response.content_part.added" => do
    let sn ← reqInt o "sequence_number"
    let iid ← reqStr o "item_id"
    let oi ← reqInt o "output_index"
    let ci ← reqInt o "content_index"
    let _ ← (jget o "part").bind decodeTextPart
    some (Event.ResponseContentPartAdded sn iid oi ci)
  | "response.output_text.delta" => do
    let sn ← reqInt o "sequence_number"
    let iid ← reqStr o "item_id"
    let oi ← reqInt o "output_index"
    let ci ← reqInt o "content_index"
    let d ← reqStr o "delta"
    let _ ← optArrField o "logprobs"
    let _ ← optStrField o "obfuscation"
    some (Event.ResponseOutputTextDelta sn iid oi ci d)
  | "response.output_text.done" => do
    let sn ← reqInt o "sequence_number"
    let iid ← reqStr o "item_id"
    let oi ← reqInt o "output_index"
    let ci ← reqInt o "content_index"
    let tx ← reqStr o "text"
    let _ ← optArrField o "logprobs"
    some (Event.ResponseOutputTextDone sn iid oi ci tx)
  | "response.content_part.done" => do
    let sn ← reqInt o "sequence_number"
    let iid ← reqStr o "item_id"
    let oi ← reqInt o "output_index"
    let ci ← reqInt o "content_index"
    let _ ← (jget o "part").bind decodeTextPart
    some (Event.ResponseContentPartDone sn iid oi ci)
  | "response.function_call_arguments.delta" => do
    let sn ← reqInt o "sequence_number"
    let iid ← reqStr o "item_id"
    let oi ← reqInt o "output_index"
    let d ← reqStr o "delta"
    let _ ← optStrField o "obfuscation"
    some (Event.ResponseFunctionCallArgumentsDelta sn iid oi d)
  | "response.function_call_arguments.done" => do
    let sn ← reqInt o "sequence_number"
    let iid ← reqStr o "item_id"
    let oi ← reqInt o "output_index"
    let args ← reqStr o "arguments"
    some (Event.ResponseFunctionCallArgumentsDone sn iid oi args)
  | "response.custom_tool_call_input.delta" => do
    let sn ← reqInt o "sequence_number"
    let iid ← reqStr o "item_id"
    let oi ← reqInt o "output_index"
    let d ← reqStr o "delta"
    let _ ← optStrField o "obfuscation"
    some (Event.ResponseCustomToolCallInputDelta sn iid oi d)
  | "response.custom_tool_call_input.done" => do
    let sn ← reqInt o "sequence_number"
    let iid ← reqStr o "item_id"
    let oi ← reqInt o "output_index"
    let inp ← reqStr o "input"
    some (Event.ResponseCustomToolCallInputDone sn iid oi inp)
  | "response.completed" => do
    let sn ← reqInt o "sequence_number"
    let r ← (jget o "response").bind decodeResponseCore
    some (Event.ResponseCompleted sn r)
  | _ => none

/-- One frame payload to one event: typed decode first; on DecodeError the
payload is re-read as generic JSON and wrapped as UnknownEvent when it is an
object; a non-object makes the dict access raise. -/
def decodeData (j : Json) : Except String Event :=
  match decodeTyped j with
  | some ev => Except.ok ev
  | none =>
    match j with
    | Json.obj o => Except.ok (Event.UnknownEvent (jgetD o "type" (Json.str "unknown")) o)
    | _ => Except.error "AttributeError: json payload is not an object"

/-- Frame payload text to event; invalid JSON is fatal for the stream. -/
def decodeEventChars (data : List Char) : Except String Event :=
  match parseJsonChars data with
  | some j => decodeData j
  | none => Except.error "json.decoder.JSONDecodeError"

/-! ### Frame decoder (class SSEDecoder, streaming.py lines 20 to 60)

Byte chunks reach the decoder already text-decoded (the source uses
errors replace, so decoding never fails); chunks are modelled as character
lists.  The buffer keeps the text after the last newline; complete lines are
handled one by one exactly as the find loop of iter_events does. -/

structure SSEDecoder where
  buffer : List Char
  cur_event : Option (List Char)
  cur_data_lines : List (List Char)

def initSSE : SSEDecoder := { buffer := [], cur_event := none, cur_data_lines := [] }

/-- Split off every complete (newline-terminated) line; the remainder after
the last newline is the new buffer. -/
def splitNl : List Char → List (List Char) × List Char
  | [] => ([], [])
  | '\n' :: rest =>
    let (ls, b) := splitNl rest
    ([] :: ls, b)
  | c :: rest =>
    let (ls, b) := splitNl rest
    match ls with
    | [] => ([], c :: b)
    | l :: ls2 => ((c :: l) :: ls2, b)

/-- Python str.join with a newline separator. -/
def joinNl : List (List Char) → List Char
  | [] => []
  | [l] => l
  | l :: ls => l ++ '\n' :: joinNl ls

/-- One iteration of the line loop of iter_events: a blank line closes the
frame (emitting the joined data payload when any data line accumulated), an
event line records the event name, a data line is appended with its leading
whitespace stripped, a comment line is dropped, and any other line is
appended whole. -/
def processLine (d : SSEDecoder) (line : List Char) : SSEDecoder × Option (List Char) :=
  if isBlankLine line then
    ({ d with cur_event := none, cur_data_lines := [] },
     if d.cur_data_lines.isEmpty then none else some (joinNl d.cur_data_lines))
  else if hasPrefixL "event:".toList line then
    ({ d with cur_event := some (stripChars (line.drop 6)) }, none)
  else if hasPrefixL "data:".toList line then
    ({ d with cur_data_lines := d.cur_data_lines ++ [lstripChars (line.drop 5)] }, none)
  else if hasPrefixL ":".toList line then
    (d, none)
  else
    ({ d with cur_data_lines := d.cur_data_lines ++ [line] }, none)

def processLines (d : SSEDecoder) : List (List Char) → SSEDecoder × List (List Char)
  | [] => (d, [])
  | l :: ls =>
    let (d1, f) := processLine d l
    let (d2, fs) := processLines d1 ls
    (d2, match f with
         | some p => p :: fs
         | none => fs)

/-- One chunk: append to the buffer, then consume every complete line. -/
def processChunk (d : SSEDecoder) (chunk : List Char) : SSEDecoder × List (List Char) :=
  let (lines, buf) := splitNl (d.buffer ++ chunk)
  processLines { d with buffer := buf } lines

/-- The whole chunk stream: frames (data payloads) in order.  When the input
ends, whatever sits in the buffer or in an unterminated frame is never
flushed, exactly as in the source. -/
def sseFrames (d : SSEDecoder) : List (List Char) → SSEDecoder × List (List Char)
  | [] => (d, [])
  | c :: cs =>
    let (d1, fs) := processChunk d c
    let (d2, fs2) := sseFrames d1 cs
    (d2, fs ++ fs2)

def mapME {α β : Type} (f : α → Except String β) : List α → Except String (List β)
  | [] => Except.ok []
  | x :: xs => do
    let b ← f x
    let bs ← mapME f xs
    Except.ok (b :: bs)

/-- iter_events over a finite chunk list: frames, each decoded to an event.
The source yields events lazily and an invalid frame raises after the
earlier events were already delivered; the claims proved below only evaluate
this on streams where no frame is fatal, so the all-or-nothing mapME
presentation is equivalent there. -/
def iterEvents (chunks : List String) : Except String (List Event) :=
  mapME decodeEventChars (sseFrames initSSE (chunks.map String.toList)).2

/-! ### Response aggregation (class ResponseAggregator, streaming.py 63-258)

The per-item dictionaries keyed by item id become association lists in
insertion order; the id taken from an output_item.added payload is required
to be present (a missing id raises KeyError in the source) and, as a
modelling restriction recorded here, to be a JSON string (wire item ids are
strings; the source would accept any hashable value as a dict key). -/

structure MessageState where
  id : String
  output_index : Int
  role : Json
  parts : List (Int × List String)

structure ReasoningState where
  id : String
  output_index : Int
  summaries : List (Int × List String)

structure FunctionCallState where
  id : String
  output_index : Int
  name : Json
  call_id : Json
  chunks : List Json

structure CustomToolCallState where
  id : String
  output_index : Int
  name : Json
  call_id : Json
  chunks : List Json

/-- Normalized sink notification (dataclass Delta of models.py); slots typed
Any in the source hold Option Json here. -/
structure Delta where
  kind : String
  output_index : Option Json := none
  item_id : Option Json := none
  content_index : Option Json := none
  summary_index : Option Json := none
  text : Option Json := none
  name : Option Json := none
  call_id : Option Json := none
  status : Option String := none
  meta : JObj := []

/-- Result of the try json.loads except fallback: either the parsed value or
the original value substituted unparsed. -/
inductive Parsed where
  | ok (j : Json) : Parsed
  | fallback (v : Json) : Parsed

/-- The completed function call dict appended to final.function_calls. -/
structure FunctionCallRecord where
  id : Option Json
  output_index : Option Json
  name : Option Json
  call_id : Option Json
  arguments : Parsed
  arguments_raw : Json

/-- The completed custom tool call dict appended to final.custom_tool_calls. -/
structure CustomToolCallRecord where
  id : Option Json
  output_index : Option Json
  name : Option Json
  call_id : Option Json
  input : Json

structure AggregatedResponse where
  response_id : Option String := none
  status : Option String := none
  model : Option String := none
  usage : Option Json := none
  text : String := ""
  reasoning_summaries : List String := []
  function_calls : List FunctionCallRecord := []
  custom_tool_calls : List CustomToolCallRecord := []
  snapshot : Option ResponseCore := none

structure ResponseAggregator where
  final : AggregatedResponse := {}
  msg : List (String × MessageState) := []
  rsn : List (String × ReasoningState) := []
  fn : List (String × FunctionCallState) := []
  ct : List (String × CustomToolCallState) := []

def initAgg : ResponseAggregator := {}

/-- Model of dict.get on the string-keyed per-item state dicts. -/
def alistGet {α : Type} (l : List (String × α)) (k : String) : Option α :=
  (l.find? (fun p => p.1 == k)).map (fun p => p.2)

/-- Model of dict item assignment (update in place, new keys at the end). -/
def alistInsert {α : Type} (l : List (String × α)) (k : String) (v : α) : List (String × α) :=
  match l with
  | [] => [(k, v)]
  | (k2, v2) :: rest => if k2 == k then (k2, v) :: rest else (k2, v2) :: alistInsert rest k v

/-- Model of d.setdefault(k, []) followed by applying f to the entry. -/
def ialistUpdate (l : List (Int × List String)) (k : Int) (f : List String → List String) :
    List (Int × List String) :=
  match l with
  | [] => [(k, f [])]
  | (k2, v2) :: rest => if k2 == k then (k2, f v2) :: rest else (k2, v2) :: ialistUpdate rest k f

/-- try json.loads(raw) except: parsed = raw, for a string argument. -/
def parseArguments (raw : String) : Parsed :=
  match parseJson raw with
  | some j => Parsed.ok j
  | none => Parsed.fallback (Json.str raw)

/-- Same fallback for a value of any JSON shape (the legacy path feeds
raw.get values to json.loads; a non-string raises TypeError, caught by the
same except clause). -/
def parsePyValue (v : Json) : Parsed :=
  match v with
  | Json.str s =>
    (match parseJson s with
     | some j => Parsed.ok j
     | none => Parsed.fallback (Json.str s))
  | other => Parsed.fallback other

/-- item id as stored by output_item.added; see the section comment for the
string restriction, and KeyError when the id is absent. -/
def itemIdStr (item : JObj) : Except String String :=
  match jget item "id" with
  | some (Json.str s) => Except.ok s
  | some _ => Except.error "non-string item id outside the modelled wire format"
  | none => Except.error "KeyError: id"

/-- dict.get against a string-keyed dict with a key that may be None or any
JSON value (the legacy fallback paths): only a string key can hit. -/
def lookupByRawId {α : Type} (m : List (String × α)) (i : Option Json) : Option α :=
  match i with
  | some (Json.str s) => alistGet m s
  | _ => none

/-- Python structural match of a value against a string literal pattern. -/
def tagEq (t : Json) (s : String) : Bool :=
  match t with
  | Json.str s2 => s2 == s
  | _ => false


/-- Delta for an item.started emission. -/
def startedDelta (oi : Int) (iid : String) (ty : String) : Delta :=
  { kind := "item.started", output_index := some (Json.num oi), item_id := some (Json.str iid), meta := [("type", Json.str ty)] }

/-- One iteration of the event loop of ResponseAggregator.stream_from
(streaming.py 81-256): the next aggregator state plus the Deltas emitted to
the sink for this event, in emission order. -/
def step (a : ResponseAggregator) (ev : Event) : Except String (ResponseAggregator × List Delta) :=
  match ev with
  | Event.ResponseCreated _ resp =>
    let f1 := { a.final with response_id := some resp.id, model := resp.model, status := some resp.status }
    Except.ok ({ a with final := f1 }, [{ kind := "response.status", status := some resp.status }])
  | Event.ResponseInProgress _ resp =>
    let f1 := { a.final with status := some resp.status }
    Except.ok ({ a with final := f1 }, [{ kind := "response.status", status := some resp.status }])
  | Event.ResponseOutputItemAdded _ oi item =>
    (match jget item "type" with
     | some (Json.str "message") => do
       let iid ← itemIdStr item
       let st : MessageState := { id := iid, output_index := oi, role := jgetD item "role" (Json.str "assistant"), parts := [] }
       Except.ok ({ a with msg := alistInsert a.msg iid st }, [startedDelta oi iid "message"])
     | some (Json.str "reasoning") => do
       let iid ← itemIdStr item
       let st : ReasoningState := { id := iid, output_index := oi, summaries := [] }
       Except.ok ({ a with rsn := alistInsert a.rsn iid st }, [startedDelta oi iid "reasoning"])
     | some (Json.str "function_call") => do
       let iid ← itemIdStr item
       let st : FunctionCallState := { id := iid, output_index := oi, name := jgetD item "name" (Json.str ""), call_id := jgetD item "call_id" (Json.str ""), chunks := [] }
       Except.ok ({ a with fn := alistInsert a.fn iid st },
         [{ startedDelta oi iid "function_call" with name := some st.name, call_id := some st.call_id }])
     | some (Json.str "custom_tool_call") => do
       let iid ← itemIdStr item
       let st : CustomToolCallState := { id := iid, output_index := oi, name := jgetD item "name" (Json.str ""), call_id := jgetD item "call_id" (Json.str ""), chunks := [] }
       Except.ok ({ a with ct := alistInsert a.ct iid st },
         [{ startedDelta oi iid "custom_tool_call" with name := some st.name, call_id := some st.call_id }])
     | t =>
       let d : Delta := { kind := "item.started", output_index := some (Json.num oi), item_id := jget item "id", meta := [("type", t.getD Json.null)] }
       Except.ok (a, [d]))
  | Event.ResponseContentPartAdded _ item_id _ ci =>
    (match alistGet a.msg item_id with
     | some st =>
       let st1 := { st with parts := ialistUpdate st.parts ci (fun v => v) }
       Except.ok ({ a with msg := alistInsert a.msg item_id st1 }, [])
     | none => Except.ok (a, []))
  | Event.ResponseOutputTextDelta _ item_id oi ci chunk =>
    let a1 := match alistGet a.msg item_id with
      | some st => { a with msg := alistInsert a.msg item_id { st with parts := ialistUpdate st.parts ci (fun v => v ++ [chunk]) } }
      | none => a
    let d : Delta := { kind := "text", output_index := some (Json.num oi), item_id := some (Json.str item_id), content_index := some (Json.num ci), text := some (Json.str chunk) }
    Except.ok ({ a1 with final := { a1.final with text := a1.final.text ++ chunk } }, [d])
  | Event.ResponseOutputTextDone _ _ _ _ _ => Except.ok (a, [])
  | Event.ResponseContentPartDone _ _ _ _ => Except.ok (a, [])
  | Event.ResponseReasoningSummaryTextDelta _ item_id oi si chunk =>
    let a1 := match alistGet a.rsn item_id with
      | some st => { a with rsn := alistInsert a.rsn item_id { st with summaries := ialistUpdate st.summaries si (fun v => v ++ [chunk]) } }
      | none => a
    let d : Delta := { kind := "reasoning", output_index := some (Json.num oi), item_id := some (Json.str item_id), summary_index := some (Json.num si), text := some (Json.str chunk) }
    Except.ok (a1, [d])
  | Event.ResponseReasoningSummaryTextDone _ _ _ _ full_text =>
    Except.ok ({ a with final := { a.final with reasoning_summaries := a.final.reasoning_summaries ++ [full_text] } }, [])
  | Event.ResponseFunctionCallArgumentsDelta _ item_id oi chunk =>
    let a1 := match alistGet a.fn item_id with
      | some st => { a with fn := alistInsert a.fn item_id { st with chunks := st.chunks ++ [Json.str chunk] } }
      | none => a
    let d : Delta := { kind := "function.arguments", output_index := some (Json.num oi), item_id := some (Json.str item_id), text := some (Json.str chunk) }
    Except.ok (a1, [d])
  | Event.ResponseFunctionCallArgumentsDone _ item_id oi raw =>
    let st := alistGet a.fn item_id
    let rec1 : FunctionCallRecord := { id := some (Json.str item_id), output_index := some (Json.num oi), name := st.map (fun s => s.name), call_id := st.map (fun s => s.call_id), arguments := parseArguments raw, arguments_raw := Json.str raw }
    Except.ok ({ a with final := { a.final with function_calls := a.final.function_calls ++ [rec1] } }, [])
  | Event.ResponseCustomToolCallInputDelta _ item_id oi chunk =>
    let a1 := match alistGet a.ct item_id with
      | some st => { a with ct := alistInsert a.ct item_id { st with chunks := st.chunks ++ [Json.str chunk] } }
      | none => a
    let d : Delta := { kind := "custom.input", output_index := some (Json.num oi), item_id := some (Json.str item_id), text := some (Json.str chunk) }
    Except.ok (a1, [d])
  | Event.ResponseCustomToolCallInputDone _ item_id oi inp =>
    let st := alistGet a.ct item_id
    let rec1 : CustomToolCallRecord := { id := some (Json.str item_id), output_index := some (Json.num oi), name := st.map (fun s => s.name), call_id := st.map (fun s => s.call_id), input := Json.str inp }
    Except.ok ({ a with final := { a.final with custom_tool_calls := a.final.custom_tool_calls ++ [rec1] } }, [])
  | Event.ResponseOutputItemDone _ oi item =>
    let d : Delta := { kind := "item.completed", output_index := some (Json.num oi), item_id := jget item "id", meta := [("item", Json.obj item)] }
    Except.ok (a, [d])
  | Event.ResponseCompleted _ resp =>
    let f1 := { a.final with snapshot := some resp, response_id := some resp.id, status := some resp.status, model := resp.model, usage := resp.usage }
    Except.ok ({ a with final := f1 }, [{ kind := "response.status", status := some resp.status }])
  | Event.ResponseReasoningSummaryPartAdded _ _ _ _ => Except.ok (a, [])
  | Event.ResponseReasoningSummaryPartDone _ _ _ _ => Except.ok (a, [])
  | Event.UnknownEvent t raw =>
    if tagEq t "response.function_call_arguments.delta" then
      let item_id := jget raw "item_id"
      let dv := jgetD raw "delta" (Json.str "")
      let a1 := match item_id with
        | some (Json.str s) =>
          (match alistGet a.fn s with
           | some st => { a with fn := alistInsert a.fn s { st with chunks := st.chunks ++ [dv] } }
           | none => a)
        | _ => a
      let d : Delta := { kind := "function.arguments", output_index := jget raw "output_index", item_id := item_id, text := some dv }
      Except.ok (a1, [d])
    else if tagEq t "response.function_call_arguments.done" then
      let item_id := jget raw "item_id"
      let args := jgetD raw "arguments" (Json.str "")
      let st := lookupByRawId a.fn item_id
      let rec1 : FunctionCallRecord := { id := item_id, output_index := jget raw "output_index", name := st.map (fun s => s.name), call_id := st.map (fun s => s.call_id), arguments := parsePyValue args, arguments_raw := args }
      Except.ok ({ a with final := { a.final with function_calls := a.final.function_calls ++ [rec1] } }, [])
    else if tagEq t "response.custom_tool_call_input.delta" then
      let item_id := jget raw "item_id"
      let dv := jgetD raw "delta" (Json.str "")
      let a1 := match item_id with
        | some (Json.str s) =>
          (match alistGet a.ct s with
           | some st => { a with ct := alistInsert a.ct s { st with chunks := st.chunks ++ [dv] } }
           | none => a)
        | _ => a
      let d : Delta := { kind := "custom.input", output_index := jget raw "output_index", item_id := item_id, text := some dv }
      Except.ok (a1, [d])
    else if tagEq t "response.custom_tool_call_input.done" then
      let item_id := jget raw "item_id"
      let inp := jgetD raw "input" (Json.str "")
      let st := lookupByRawId a.ct item_id
      let rec1 : CustomToolCallRecord := { id := item_id, output_index := jget raw "output_index", name := st.map (fun s => s.name), call_id := st.map (fun s => s.call_id), input := inp }
      Except.ok ({ a with final := { a.final with custom_tool_calls := a.final.custom_tool_calls ++ [rec1] } }, [])
    else
      Except.ok (a, [{ kind := "unknown", meta := raw }])

/-- The event loop of stream_from over a decoded event sequence: the final
aggregator state and the full Delta trace in sink order.  The source has no
early exit: every decoded event is processed until the stream ends. -/
def runFrom (a : ResponseAggregator) : List Event → Except String (ResponseAggregator × List Delta)
  | [] => Except.ok (a, [])
  | ev :: evs => do
    let (a1, ds) ← step a ev
    let (a2, ds2) ← runFrom a1 evs
    Except.ok (a2, ds ++ ds2)

/-- stream_from on an already decoded event list, from a fresh aggregator. -/
def runAgg (evs : List Event) : Except String (ResponseAggregator × List Delta) :=
  runFrom initAgg evs

/-- Whole pipeline of stream_response: chunks to frames to events to the
aggregated response plus the Delta trace. -/
def stream_response (chunks : List String) : Except String (AggregatedResponse × List Delta) := do
  let evs ← iterEvents chunks
  let (a, ds) ← runFrom initAgg evs
  Except.ok (a.final, ds)

/-! ### Turn loop (class Agent, agent.py 21-108)

The conversation items are modelled by shape: the user item appended at the
start of a call, items copied from the completed snapshot output, and the
two tool output item kinds the loop itself builds.  A tool registry entry is
one callable reachable under a name; the model keeps both of the invocation
styles the loop uses on it (keyword unpacking of parsed arguments, or one
positional raw payload), each returning the already-stringified result, the
str applied to the awaited return value.  The sequence of aggregated
responses, one per HTTP round trip, stands for the model endpoint; the loop
consumes one per turn and asking for a turn beyond the list is modelled as a
transport error. -/

inductive AgentItem where
  | userMessage (content : String) : AgentItem
  | snapshotItem (item : JObj) : AgentItem
  | functionCallOutput (call_id : Option Json) (output : String) : AgentItem
  | customToolCallOutput (call_id : Option Json) (output : String) : AgentItem

structure Tool where
  callKw : JObj → String
  callRaw : Json → String

abbrev Tools := String → Option Tool

/-- The arguments value of a record, as keyword arguments: only a dict can
be unpacked with two stars; anything else raises TypeError. -/
def kwargsOf : Parsed → Option JObj
  | Parsed.ok (Json.obj o) => some o
  | Parsed.fallback (Json.obj o) => some o
  | _ => none

/-- One function call dispatch (agent.py 79-88): registry lookup by the
record name raises KeyError when the name is absent or not a string key;
then the callable runs on the parsed arguments as keyword arguments and a
function_call_output item is built from the call id and the stringified
result. -/
def dispatchFunctionCall (tools : Tools) (fc : FunctionCallRecord) : Except String AgentItem :=
  match fc.name with
  | some (Json.str n) =>
    (match tools n with
     | some tool =>
       (match kwargsOf fc.arguments with
        | some o => Except.ok (AgentItem.functionCallOutput fc.call_id (tool.callKw o))
        | none => Except.error "TypeError: arguments do not unpack as keyword arguments")
     | none => Except.error "KeyError: tool name not in registry")
  | _ => Except.error "KeyError: tool name not in registry"

/-- One custom tool call dispatch (agent.py 90-99): the callable runs on the
raw input as a single positional argument. -/
def dispatchCustomToolCall (tools : Tools) (ctc : CustomToolCallRecord) : Except String AgentItem :=
  match ctc.name with
  | some (Json.str n) =>
    (match tools n with
     | some tool => Except.ok (AgentItem.customToolCallOutput ctc.call_id (tool.callRaw ctc.input))
     | none => Except.error "KeyError: tool name not in registry")
  | _ => Except.error "KeyError: tool name not in registry"

/-- final.usage.get("total_tokens") inside try/except: a missing usage dict
gives None through the except clause. -/
def totalTokensOf (usage : Option Json) : Option Json :=
  match usage with
  | some (Json.obj o) => jget o "total_tokens"
  | _ => none

/-- The while loop of Agent.__call__ (agent.py 49-108).  Each turn reads the
next aggregated response, dereferences final.snapshot.output (the source
raises AttributeError when snapshot is None, and TypeError when output is
None - there is no guard), appends every snapshot output item, then the
function call branch, else the custom tool call branch, else returns the
total-token usage and the items.  The source appends each tool output as
its call finishes; a failing call therefore leaves earlier outputs in
self.items, a difference from this all-or-nothing presentation that is
invisible to the success and first-failure behaviour proved below. -/
def agentLoop (tools : Tools) : List AggregatedResponse → List AgentItem → Except String (Option Json × List AgentItem)
  | [], _ => Except.error "transport: model endpoint produced no further response"
  | final :: rest, items => do
    let snap ← match final.snapshot with
      | some s => Except.ok s
      | none => Except.error "AttributeError: NoneType object has no attribute output"
    let outs ← match snap.output with
      | some o => Except.ok o
      | none => Except.error "TypeError: NoneType object is not iterable"
    let items1 := items ++ outs.map AgentItem.snapshotItem
    if final.function_calls.isEmpty then
      if final.custom_tool_calls.isEmpty then
        Except.ok (totalTokensOf final.usage, items1)
      else do
        let couts ← mapME (dispatchCustomToolCall tools) final.custom_tool_calls
        agentLoop tools rest (items1 ++ couts)
    else do
      let fouts ← mapME (dispatchFunctionCall tools) final.function_calls
      agentLoop tools rest (items1 ++ fouts)

/-- Agent.__call__: append the user item, run the turn loop, return the
total tokens and the slice of items added after the starting length. -/
def agentCall (tools : Tools) (finals : List AggregatedResponse) (items0 : List AgentItem) (prompt : String) :
    Except String (Option Json × List AgentItem) :=
  match agentLoop tools finals (items0 ++ [AgentItem.userMessage prompt]) with
  | Except.ok (t, its) => Except.ok (t, its.drop items0.length)
  | Except.error e => Except.error e

/-! ### Concrete inputs used by the claims -/

/-- Response snapshot carried by response.created in Scenario A. -/
def respInProgressA : ResponseCore :=
  { id := "r1", created_at := 1, status := "in_progress", background := false, model := some "gpt-5", usage := none, output := none }

/-- Response snapshot carried by response.completed in Scenario A. -/
def respCompletedA : ResponseCore :=
  { id := "r1", created_at := 1, status := "completed", background := false, model := some "gpt-5", usage := some (Json.obj [("total_tokens", Json.num 42)]), output := some [[("id", Json.str "m1"), ("type", Json.str "message")]] }

/-- Scenario A event stream: created, message item m1 added, three text
fragments, item done, completed. -/
def scenarioA : List Event :=
  [Event.ResponseCreated 0 respInProgressA,
   Event.ResponseOutputItemAdded 1 0 [("id", Json.str "m1"), ("type", Json.str "message"), ("role", Json.str "assistant")],
   Event.ResponseOutputTextDelta 2 "m1" 0 0 "He",
   Event.ResponseOutputTextDelta 3 "m1" 0 0 "llo",
   Event.ResponseOutputTextDelta 4 "m1" 0 0 " world",
   Event.ResponseOutputItemDone 5 0 [("id", Json.str "m1"), ("type", Json.str "message")],
   Event.ResponseCompleted 6 respCompletedA]

/-- Scenario D byte chunks: a stream that disconnects after the second of
three expected text deltas, leaving one frame cut off mid-payload. -/
def c4chunk1 : String := "data: \x7b\"type\":\"response.created\",\"sequence_number\":0,\"response\":\x7b\"id\":\"r1\",\"object\":\"response\",\"created_at\":1,\"status\":\"in_progress\",\"background\":false\x7d\x7d\n\n"

def c4chunk2 : String := "data: \x7b\"type\":\"response.output_item.added\",\"sequence_number\":1,\"output_index\":0,\"item\":\x7b\"id\":\"m1\",\"type\":\"message\",\"role\":\"assistant\"\x7d\x7d\n\n"

def c4chunk3 : String := "data: \x7b\"type\":\"response.output_text.delta\",\"sequence_number\":2,\"item_id\":\"m1\",\"output_index\":0,\"content_index\":0,\"delta\":\"He\"\x7d\n\n"

def c4chunk4 : String := "data: \x7b\"type\":\"response.output_text.delta\",\"sequence_number\":3,\"item_id\":\"m1\",\"output_index\":0,\"content_index\":0,\"delta\":\"llo\"\x7d\n\ndata: \x7b\"type\":\"response.outp"

def c4chunks : List String := [c4chunk1, c4chunk2, c4chunk3, c4chunk4]

/-- The events whose frames were complete before the disconnect. -/
def c4events : List Event :=
  [Event.ResponseCreated 0 { id := "r1", created_at := 1, status := "in_progress", background := false, model := none, usage := none, output := none },
   Event.ResponseOutputItemAdded 1 0 [("id", Json.str "m1"), ("type", Json.str "message"), ("role", Json.str "assistant")],
   Event.ResponseOutputTextDelta 2 "m1" 0 0 "He",
   Event.ResponseOutputTextDelta 3 "m1" 0 0 "llo"]

/-- A registry with one tool named t. -/
def toolT : Tool := { callKw := fun _ => "r", callRaw := fun _ => "q" }

def toolsBoth : Tools := fun n => if n == "t" then some toolT else none

/-- A completed function call record requesting tool t. -/
def fcBoth : FunctionCallRecord :=
  { id := some (Json.str "f1"), output_index := some (Json.num 0), name := some (Json.str "t"), call_id := some (Json.str "c1"), arguments := Parsed.ok (Json.obj []), arguments_raw := Json.str "\x7b\x7d" }

/-- A completed custom tool call record requesting tool t. -/
def ctcBoth : CustomToolCallRecord :=
  { id := some (Json.str "g1"), output_index := some (Json.num 1), name := some (Json.str "t"), call_id := some (Json.str "c2"), input := Json.str "x" }

/-- A completed snapshot whose output list is empty. -/
def snapEmpty : ResponseCore :=
  { id := "r2", created_at := 1, status := "completed", background := false, model := none, usage := none, output := some [] }

/-- Turn result with one function call and one custom tool call. -/
def finalBoth : AggregatedResponse :=
  { function_calls := [fcBoth], custom_tool_calls := [ctcBoth], snapshot := some snapEmpty }

/-- Turn result with one function call only. -/
def finalFnOnly : AggregatedResponse :=
  { function_calls := [fcBoth], snapshot := some snapEmpty }

/-- Turn result with no calls of either kind. -/
def finalNoCalls : AggregatedResponse :=
  { snapshot := some snapEmpty, usage := some (Json.obj [("total_tokens", Json.num 7)]) }

/-- The legacy fallback tags of the UnknownEvent dispatch. -/
def isLegacyTag (t : Json) : Bool :=
  tagEq t "response.function_call_arguments.delta" || tagEq t "response.function_call_arguments.done" ||
  tagEq t "response.custom_tool_call_input.delta" || tagEq t "response.custom_tool_call_input.done"

/-! ### Helper lemmas -/

@[simp] theorem except_bind_ok {α β : Type} (a : α) (f : α → Except String β) :
    (Except.ok a : Except String α) >>= f = f a := rfl

@[simp] theorem except_bind_error {α β : Type} (e : String) (f : α → Except String β) :
    (Except.error e : Except String α) >>= f = Except.error e := rfl

/-- A successful mapME preserves length. -/
theorem mapME_ok_length {α β : Type} (f : α → Except String β) :
    ∀ (l : List α) (l2 : List β), mapME f l = Except.ok l2 → l2.length = l.length := by
  intro l
  induction l with
  | nil =>
    intro l2 h
    simp only [mapME] at h
    cases h
    rfl
  | cons x xs ih =>
    intro l2 h
    rw [mapME] at h
    cases hf : f x with
    | error e => rw [hf] at h; simp at h
    | ok b =>
      rw [hf] at h
      cases hm : mapME f xs with
      | error e => rw [hm] at h; simp at h
      | ok bs =>
        rw [hm] at h
        simp at h
        cases h
        simp [ih bs hm]

/-- Every element of a successful mapME output comes from applying f to some
element of the input. -/
theorem mapME_ok_mem {α β : Type} (f : α → Except String β) :
    ∀ (l : List α) (l2 : List β), mapME f l = Except.ok l2 →
      ∀ x ∈ l2, ∃ a ∈ l, f a = Except.ok x := by
  intro l
  induction l with
  | nil =>
    intro l2 h
    simp only [mapME] at h
    cases h
    intro x hx
    cases hx
  | cons y ys ih =>
    intro l2 h
    rw [mapME] at h
    cases hf : f y with
    | error e => rw [hf] at h; simp at h
    | ok b =>
      rw [hf] at h
      cases hm : mapME f ys with
      | error e => rw [hm] at h; simp at h
      | ok bs =>
        rw [hm] at h
        simp at h
        cases h
        intro x hx
        cases hx with
        | head => exact ⟨y, List.mem_cons_self y ys, hf⟩
        | tail _ hxs =>
          obtain ⟨a, ha, hfa⟩ := ih bs hm x hxs
          exact ⟨a, List.mem_cons_of_mem y ha, hfa⟩

/-- A successful function call dispatch always builds a function_call_output. -/
theorem dispatchFunctionCall_shape (tools : Tools) (fc : FunctionCallRecord) (x : AgentItem)
    (h : dispatchFunctionCall tools fc = Except.ok x) :
    ∃ cid out, x = AgentItem.functionCallOutput cid out := by
  unfold dispatchFunctionCall at h
  split at h
  · split at h
    · split at h
      · cases h
        exact ⟨_, _, rfl⟩
      · cases h
    · cases h
  · cases h

/-- A successful custom tool call dispatch always builds a
custom_tool_call_output. -/
theorem dispatchCustomToolCall_shape (tools : Tools) (ctc : CustomToolCallRecord) (x : AgentItem)
    (h : dispatchCustomToolCall tools ctc = Except.ok x) :
    ∃ cid out, x = AgentItem.customToolCallOutput cid out := by
  unfold dispatchCustomToolCall at h
  split at h
  · split at h
    · cases h
      exact ⟨_, _, rfl⟩
    · cases h
  · cases h

/-! ### Claim theorems -/

/-- C1 (confirmed): for the Scenario A event stream (response.created, a
message item m1 added, three text deltas He, llo, space world, item done,
response.completed), the final AggregatedResponse.text is Hello world and
the sink receives exactly one response.status Delta, one item.started Delta,
three text Deltas, one item.completed Delta and one response.status Delta,
in that order. -/
theorem c1_scenario_a_text_and_delta_order :
    (runAgg scenarioA).map (fun p => p.1.final.text) = Except.ok "Hello world" ∧
    (runAgg scenarioA).map (fun p => p.2.map (fun (d : Delta) => d.kind)) =
      Except.ok ["response.status", "item.started", "text", "text", "text", "item.completed", "response.status"] :=
  ⟨rfl, rfl⟩

/-- C3 counterexample: after response.completed the aggregation does not
stop; a response.output_text.delta event placed after response.completed is
still processed and changes the accumulated text from empty to X, so the
result is affected by an event occurring after response.completed. -/
theorem c3_post_completed_event_processed :
    (runAgg [Event.ResponseCompleted 0 respCompletedA]).map (fun p => p.1.final.text) = Except.ok "" ∧
    (runAgg [Event.ResponseCompleted 0 respCompletedA, Event.ResponseOutputTextDelta 1 "m1" 0 0 "X"]).map (fun p => p.1.final.text) = Except.ok "X" ∧
    ("X" : String) ≠ "" :=
  ⟨rfl, rfl, by decide⟩

/-- C3 (amended): when the aggregator processes response.completed it
captures the full response snapshot, id, status, model and usage and emits a
response.status Delta, but aggregation does not stop there: the remaining
events of the stream are processed normally, and the accumulated response is
returned only when the stream ends. -/
theorem c3_completed_captures_and_continues (a : ResponseAggregator) (sn : Int) (resp : ResponseCore) (rest : List Event) :
    runFrom a (Event.ResponseCompleted sn resp :: rest) =
      (runFrom { a with final := { a.final with snapshot := some resp, response_id := some resp.id, status := some resp.status, model := resp.model, usage := resp.usage } } rest).map
        (fun p => (p.1, ({ kind := "response.status", status := some resp.status } : Delta) :: p.2)) := by
  rw [runFrom]
  rw [show step a (Event.ResponseCompleted sn resp) = Except.ok ({ a with final := { a.final with snapshot := some resp, response_id := some resp.id, status := some resp.status, model := resp.model, usage := resp.usage } }, [{ kind := "response.status", status := some resp.status }]) from rfl]
  simp only [except_bind_ok]
  cases runFrom { a with final := { a.final with snapshot := some resp, response_id := some resp.id, status := some resp.status, model := resp.model, usage := resp.usage } } rest with
  | error e => rfl
  | ok p => rfl

/-- C5 counterexample: a text fragment delta whose item id ghost was never
registered still grows the aggregate text field of the AggregatedResponse
(from empty to He), so the fragment is not accumulated nowhere; the per-item
state stays empty and the Delta is still emitted. -/
theorem c5_unregistered_text_grows_aggregate :
    (runAgg [Event.ResponseOutputTextDelta 0 "ghost" 0 0 "He"]).map (fun p => (p.1.final.text, p.1.msg, p.2.map (fun (d : Delta) => (d.kind, d.name, d.call_id)))) =
      Except.ok ("He", ([] : List (String × MessageState)), [("text", (none : Option Json), (none : Option Json))]) ∧
    ("He" : String) ≠ "" :=
  ⟨rfl, by decide⟩

/-- C5 (amended): for a reasoning, function-arguments or custom-input
fragment delta whose item id was never registered, no per-item state is
created or changed and no aggregate field grows; for a text fragment delta
the per-item state is likewise untouched but the aggregate text still grows
by the fragment; in every case the Delta is still forwarded to the sink with
a null name and call-id, and no error is raised. -/
theorem c5_unregistered_fragment_deltas (a : ResponseAggregator) (sn oi ci si : Int) (iid chunk : String)
    (hmsg : alistGet a.msg iid = none) (hrsn : alistGet a.rsn iid = none)
    (hfn : alistGet a.fn iid = none) (hct : alistGet a.ct iid = none) :
    step a (Event.ResponseOutputTextDelta sn iid oi ci chunk) =
      Except.ok ({ a with final := { a.final with text := a.final.text ++ chunk } }, [{ kind := "text", output_index := some (Json.num oi), item_id := some (Json.str iid), content_index := some (Json.num ci), text := some (Json.str chunk) }]) ∧
    step a (Event.ResponseReasoningSummaryTextDelta sn iid oi si chunk) =
      Except.ok (a, [{ kind := "reasoning", output_index := some (Json.num oi), item_id := some (Json.str iid), summary_index := some (Json.num si), text := some (Json.str chunk) }]) ∧
    step a (Event.ResponseFunctionCallArgumentsDelta sn iid oi chunk) =
      Except.ok (a, [{ kind := "function.arguments", output_index := some (Json.num oi), item_id := some (Json.str iid), text := some (Json.str chunk) }]) ∧
    step a (Event.ResponseCustomToolCallInputDelta sn iid oi chunk) =
      Except.ok (a, [{ kind := "custom.input", output_index := some (Json.num oi), item_id := some (Json.str iid), text := some (Json.str chunk) }]) := by
  refine ⟨?_, ?_, ?_, ?_⟩ <;> simp [step, hmsg, hrsn, hfn, hct]

/-- C5 witness: the text conjunct of the amended claim instantiated on a
fresh aggregator and the unregistered item id ghost. -/
theorem c5_unregistered_fragment_deltas_witness :
    step initAgg (Event.ResponseOutputTextDelta 0 "ghost" 0 0 "He") =
      Except.ok ({ initAgg with final := { initAgg.final with text := initAgg.final.text ++ "He" } }, [{ kind := "text", output_index := some (Json.num 0), item_id := some (Json.str "ghost"), content_index := some (Json.num 0), text := some (Json.str "He") }]) :=
  (c5_unregistered_fragment_deltas initAgg 0 0 0 0 "ghost" "He" rfl rfl rfl rfl).1

/-- C6 (confirmed): a response.function_call_arguments.done event whose
arguments string does not parse as JSON raises no exception and still
appends a completed function call record whose parsed-arguments slot is the
literal raw string substituted for the parsed value. -/
theorem c6_invalid_arguments_fall_back_to_raw (a : ResponseAggregator) (sn oi : Int) (iid raw : String)
    (hbad : parseJson raw = none) :
    step a (Event.ResponseFunctionCallArgumentsDone sn iid oi raw) =
      Except.ok ({ a with final := { a.final with function_calls := a.final.function_calls ++ [{ id := some (Json.str iid), output_index := some (Json.num oi), name := (alistGet a.fn iid).map (fun s => s.name), call_id := (alistGet a.fn iid).map (fun s => s.call_id), arguments := Parsed.fallback (Json.str raw), arguments_raw := Json.str raw }] } }, []) := by
  simp [step, parseArguments, hbad]

/-- C6 witness: the invalid arguments string of Scenario B on a fresh
aggregator. -/
theorem c6_invalid_arguments_fall_back_to_raw_witness :
    step initAgg (Event.ResponseFunctionCallArgumentsDone 0 "f1" 0 "\x7binvalid") =
      Except.ok ({ initAgg with final := { initAgg.final with function_calls := initAgg.final.function_calls ++ [{ id := some (Json.str "f1"), output_index := some (Json.num 0), name := (alistGet initAgg.fn "f1").map (fun s => s.name), call_id := (alistGet initAgg.fn "f1").map (fun s => s.call_id), arguments := Parsed.fallback (Json.str "\x7binvalid"), arguments_raw := Json.str "\x7binvalid" }] } }, []) :=
  c6_invalid_arguments_fall_back_to_raw initAgg 0 0 "f1" "\x7binvalid" rfl

/-- C7 (confirmed): an UnknownEvent whose tag is none of the legacy fallback
tags makes the aggregator emit exactly one unknown-kind Delta carrying the
raw object as metadata, with no change to any per-item state or to any field
of the accumulating AggregatedResponse; and the decoder turns any JSON
object that fails the typed decode into exactly that UnknownEvent. -/
theorem c7_unknown_tag_emits_one_delta_no_mutation (a : ResponseAggregator) (t : Json) (raw : JObj)
    (h : isLegacyTag t = false) :
    step a (Event.UnknownEvent t raw) = Except.ok (a, [{ kind := "unknown", meta := raw }]) ∧
    (∀ (o : JObj), decodeTyped (Json.obj o) = none →
      decodeData (Json.obj o) = Except.ok (Event.UnknownEvent (jgetD o "type" (Json.str "unknown")) o)) := by
  constructor
  · simp only [isLegacyTag, Bool.or_eq_false_iff] at h
    obtain ⟨⟨⟨h1, h2⟩, h3⟩, h4⟩ := h
    simp [step, h1, h2, h3, h4]
  · intro o ho
    simp [decodeData, ho]

/-- C7 witness: a concrete unrecognized tag on a fresh aggregator. -/
theorem c7_unknown_tag_witness :
    step initAgg (Event.UnknownEvent (Json.str "weird.tag") [("type", Json.str "weird.tag"), ("x", Json.num 1)]) =
      Except.ok (initAgg, [{ kind := "unknown", meta := [("type", Json.str "weird.tag"), ("x", Json.num 1)] }]) :=
  (c7_unknown_tag_emits_one_delta_no_mutation initAgg (Json.str "weird.tag") [("type", Json.str "weird.tag"), ("x", Json.num 1)] rfl).1

/-- C10 (confirmed): a function arguments done or custom tool call input
done event for an item id that was never registered does not raise (the
state lookup is a guarded get) and still appends a completed call record
whose name and call_id slots are both null. -/
theorem c10_done_without_registration (a : ResponseAggregator) (sn oi : Int) (iid raw inp : String)
    (hfn : alistGet a.fn iid = none) (hct : alistGet a.ct iid = none) :
    step a (Event.ResponseFunctionCallArgumentsDone sn iid oi raw) =
      Except.ok ({ a with final := { a.final with function_calls := a.final.function_calls ++ [{ id := some (Json.str iid), output_index := some (Json.num oi), name := none, call_id := none, arguments := parseArguments raw, arguments_raw := Json.str raw }] } }, []) ∧
    step a (Event.ResponseCustomToolCallInputDone sn iid oi inp) =
      Except.ok ({ a with final := { a.final with custom_tool_calls := a.final.custom_tool_calls ++ [{ id := some (Json.str iid), output_index := some (Json.num oi), name := none, call_id := none, input := Json.str inp }] } }, []) := by
  constructor <;> simp [step, hfn, hct]

/-- C10 witness: both done events for the unregistered item id g9 on a fresh
aggregator. -/
theorem c10_done_without_registration_witness :
    step initAgg (Event.ResponseFunctionCallArgumentsDone 0 "g9" 2 "\x7b\x7d") =
      Except.ok ({ initAgg with final := { initAgg.final with function_calls := initAgg.final.function_calls ++ [{ id := some (Json.str "g9"), output_index := some (Json.num 2), name := none, call_id := none, arguments := parseArguments "\x7b\x7d", arguments_raw := Json.str "\x7b\x7d" }] } }, []) ∧
    step initAgg (Event.ResponseCustomToolCallInputDone 0 "g9" 2 "abc") =
      Except.ok ({ initAgg with final := { initAgg.final with custom_tool_calls := initAgg.final.custom_tool_calls ++ [{ id := some (Json.str "g9"), output_index := some (Json.num 2), name := none, call_id := none, input := Json.str "abc" }] } }, []) :=
  c10_done_without_registration initAgg 0 2 "g9" "\x7b\x7d" "abc" rfl rfl

/-- C8 counterexample: a data line with two leading spaces after the colon
is stripped of all leading whitespace, not of exactly the single leading
space: the assembled payload is x, not space x as the claim predicts. -/
theorem c8_lstrip_strips_all_leading_whitespace :
    (sseFrames initSSE ["data:  x\n\n".toList]).2 = ["x".toList] ∧
    "x".toList ≠ " x".toList :=
  ⟨rfl, by decide⟩

/-- C8 (amended): the decoder assembles the payload by appending each data
line content with all leading whitespace stripped (not just one space),
joining multiple data lines with a newline; a comment line starting with a
colon is dropped; and a frame that accumulated no data lines yields no
event. -/
theorem c8_frame_assembly (d : SSEDecoder) (line : List Char) :
    (isBlankLine line = false → hasPrefixL "event:".toList line = false → hasPrefixL "data:".toList line = true →
      processLine d line = ({ d with cur_data_lines := d.cur_data_lines ++ [lstripChars (line.drop 5)] }, none)) ∧
    (isBlankLine line = true → d.cur_data_lines ≠ [] →
      processLine d line = ({ d with cur_event := none, cur_data_lines := [] }, some (joinNl d.cur_data_lines))) ∧
    (isBlankLine line = true → d.cur_data_lines = [] →
      processLine d line = ({ d with cur_event := none, cur_data_lines := [] }, none)) ∧
    (isBlankLine line = false → hasPrefixL "event:".toList line = false → hasPrefixL "data:".toList line = false → hasPrefixL ":".toList line = true →
      processLine d line = (d, none)) := by
  refine ⟨?_, ?_, ?_, ?_⟩
  · intro hb he hd
    simp at he hd
    simp [processLine, hb, he, hd]
  · intro hb hne
    cases hcd : d.cur_data_lines with
    | nil => exact absurd hcd hne
    | cons x xs => simp [processLine, hb, hcd]
  · intro hb hnil
    simp [processLine, hb, hnil]
  · intro hb he hd hc
    simp at he hd hc
    simp [processLine, hb, he, hd, hc]

/-- C8 witness: the data line of the counterexample, a blank line closing a
frame with one data line, a blank line closing an empty frame, and a comment
line, each instantiated concretely. -/
theorem c8_frame_assembly_witness :
    processLine initSSE "data:  x".toList = ({ initSSE with cur_data_lines := initSSE.cur_data_lines ++ [lstripChars ("data:  x".toList.drop 5)] }, none) ∧
    processLine { initSSE with cur_data_lines := ["x".toList] } [] = ({ { initSSE with cur_data_lines := ["x".toList] } with cur_event := none, cur_data_lines := [] }, some (joinNl ["x".toList])) ∧
    processLine initSSE [] = ({ initSSE with cur_event := none, cur_data_lines := [] }, none) ∧
    processLine initSSE ": c".toList = (initSSE, none) := by
  refine ⟨?_, ?_, ?_, ?_⟩
  · exact (c8_frame_assembly initSSE "data:  x".toList).1 rfl rfl rfl
  · exact (c8_frame_assembly { initSSE with cur_data_lines := ["x".toList] } []).2.1 rfl (by simp)
  · exact (c8_frame_assembly initSSE []).2.2.1 rfl rfl
  · exact (c8_frame_assembly initSSE ": c".toList).2.2.2 rfl rfl rfl rfl

/-- C9 (confirmed): a non-blank line starting with none of the event, data
or comment prefixes is treated as a payload data line: its full content is
appended to the frame data lines, and the payload emitted at the next blank
line includes it joined into the data decoded for the frame. -/
theorem c9_plain_line_is_data (d : SSEDecoder) (line : List Char)
    (hb : isBlankLine line = false)
    (he : hasPrefixL "event:".toList line = false)
    (hd : hasPrefixL "data:".toList line = false)
    (hc : hasPrefixL ":".toList line = false) :
    processLine d line = ({ d with cur_data_lines := d.cur_data_lines ++ [line] }, none) ∧
    (processLine { d with cur_data_lines := d.cur_data_lines ++ [line] } []).2 =
      some (joinNl (d.cur_data_lines ++ [line])) := by
  constructor
  · simp at he hd hc
    simp [processLine, hb, he, hd, hc]
  · simp [processLine, isBlankLine, stripChars, lstripChars]

/-- C9 witness: a plain line on a fresh decoder state. -/
theorem c9_plain_line_is_data_witness :
    processLine initSSE "hello".toList = ({ initSSE with cur_data_lines := initSSE.cur_data_lines ++ ["hello".toList] }, none) ∧
    (processLine { initSSE with cur_data_lines := initSSE.cur_data_lines ++ ["hello".toList] } []).2 =
      some (joinNl (initSSE.cur_data_lines ++ ["hello".toList])) :=
  c9_plain_line_is_data initSSE "hello".toList rfl rfl rfl rfl

/-- C2 counterexample: a turn whose aggregated result has one function call
and one custom tool call appends only one output item (the
function_call_output) before the next request - the custom tool call
produces no output item because the custom branch sits behind an elif - so
a turn does not append exactly one output item per call of either kind. -/
theorem c2_both_call_kinds_counterexample :
    agentLoop toolsBoth [finalBoth, finalNoCalls] [] =
      Except.ok (some (Json.num 7), [AgentItem.functionCallOutput (some (Json.str "c1")) "r"]) ∧
    finalBoth.function_calls.length + finalBoth.custom_tool_calls.length = 2 ∧
    ([AgentItem.functionCallOutput (some (Json.str "c1")) "r"] : List AgentItem).length = 1 :=
  ⟨rfl, rfl, rfl⟩

/-- C2 (amended): a turn whose aggregated result has zero function calls and
zero custom tool calls ends the invocation, returning the total-token usage
and the accumulated items; a turn with one or more function calls appends
exactly one function_call_output item per function call before the next
request is issued; a turn with no function calls but one or more custom tool
calls appends exactly one custom_tool_call_output item per custom tool call;
when both kinds are present only the function calls produce output items. -/
theorem c2_turn_loop (tools : Tools) (final : AggregatedResponse) (rest : List AggregatedResponse)
    (items : List AgentItem) (snap : ResponseCore) (outs : List JObj)
    (hsnap : final.snapshot = some snap) (houts : snap.output = some outs) :
    (final.function_calls = [] → final.custom_tool_calls = [] →
      agentLoop tools (final :: rest) items = Except.ok (totalTokensOf final.usage, items ++ outs.map AgentItem.snapshotItem)) ∧
    (∀ fc0 fcs fouts, final.function_calls = fc0 :: fcs →
      mapME (dispatchFunctionCall tools) final.function_calls = Except.ok fouts →
      (agentLoop tools (final :: rest) items = agentLoop tools rest (items ++ outs.map AgentItem.snapshotItem ++ fouts) ∧
       fouts.length = final.function_calls.length ∧
       ∀ x ∈ fouts, ∃ cid out, x = AgentItem.functionCallOutput cid out)) ∧
    (∀ ctc0 ctcs couts, final.function_calls = [] → final.custom_tool_calls = ctc0 :: ctcs →
      mapME (dispatchCustomToolCall tools) final.custom_tool_calls = Except.ok couts →
      (agentLoop tools (final :: rest) items = agentLoop tools rest (items ++ outs.map AgentItem.snapshotItem ++ couts) ∧
       couts.length = final.custom_tool_calls.length ∧
       ∀ x ∈ couts, ∃ cid out, x = AgentItem.customToolCallOutput cid out)) := by
  refine ⟨?_, ?_, ?_⟩
  · intro h1 h2
    rw [agentLoop, hsnap]
    simp only [except_bind_ok]
    rw [houts]
    simp only [except_bind_ok]
    simp [h1, h2]
  · intro fc0 fcs fouts hfc hmap
    refine ⟨?_, ?_, ?_⟩
    · rw [agentLoop, hsnap]
      simp only [except_bind_ok]
      rw [houts]
      simp only [except_bind_ok]
      rw [hfc]
      simp only [List.isEmpty_cons, Bool.false_eq_true, if_false]
      rw [← hfc, hmap]
      simp only [except_bind_ok]
    · exact mapME_ok_length (dispatchFunctionCall tools) final.function_calls fouts hmap
    · intro x hx
      obtain ⟨a2, _, hfa⟩ := mapME_ok_mem (dispatchFunctionCall tools) final.function_calls fouts hmap x hx
      exact dispatchFunctionCall_shape tools a2 x hfa
  · intro ctc0 ctcs couts hfc hctc hmap
    refine ⟨?_, ?_, ?_⟩
    · rw [agentLoop, hsnap]
      simp only [except_bind_ok]
      rw [houts]
      simp only [except_bind_ok]
      rw [hfc]
      simp only [List.isEmpty_nil, if_true]
      rw [hctc]
      simp only [List.isEmpty_cons, Bool.false_eq_true, if_false]
      rw [← hctc, hmap]
      simp only [except_bind_ok]
    · exact mapME_ok_length (dispatchCustomToolCall tools) final.custom_tool_calls couts hmap
    · intro x hx
      obtain ⟨a2, _, hfa⟩ := mapME_ok_mem (dispatchCustomToolCall tools) final.custom_tool_calls couts hmap x hx
      exact dispatchCustomToolCall_shape tools a2 x hfa

/-- C2 witness: the function call branch of the amended claim instantiated
on a turn carrying exactly one function call, followed by a turn with no
calls. -/
theorem c2_turn_loop_witness :
    agentLoop toolsBoth (finalFnOnly :: [finalNoCalls]) [] =
      agentLoop toolsBoth [finalNoCalls] ([] ++ ([] : List JObj).map AgentItem.snapshotItem ++ [AgentItem.functionCallOutput (some (Json.str "c1")) "r"]) ∧
    ([AgentItem.functionCallOutput (some (Json.str "c1")) "r"] : List AgentItem).length = finalFnOnly.function_calls.length ∧
    ∀ x ∈ ([AgentItem.functionCallOutput (some (Json.str "c1")) "r"] : List AgentItem), ∃ cid out, x = AgentItem.functionCallOutput cid out :=
  (c2_turn_loop toolsBoth finalFnOnly [finalNoCalls] [] snapEmpty [] rfl rfl).2.1 fcBoth [] [AgentItem.functionCallOutput (some (Json.str "c1")) "r"] rfl rfl

/-- C4 (code bug per the spec): for the Scenario D chunk stream that
disconnects after two of three expected text deltas, the decoder does yield
exactly the events whose frames were fully parsed and ends without raising,
and the aggregator returns the truncated result with no snapshot; but the turn
loop then crashes instead of stopping cleanly: with snapshot still None,
the attribute access final.snapshot.output raises, so the invocation ends in
an AttributeError rather than the clean stop the specification requires. -/
theorem c4_disconnect_decoder_clean_turn_loop_crashes :
    iterEvents c4chunks = Except.ok c4events ∧
    (stream_response c4chunks).map (fun p => (p.1.text, p.1.snapshot.isNone)) = Except.ok ("Hello", true) ∧
    (stream_response c4chunks).map (fun p => agentLoop (fun _ => none) [p.1] []) =
      Except.ok (Except.error "AttributeError: NoneType object has no attribute output") :=
  ⟨rfl, rfl, rfl⟩
